import Mathlib

/-!
Shallow embedding of the scoring/deduplication/correlation engine of the
astroturf-detector repository (docs/js/app.js), restricted to the parts
the verified claims concern: the timeline builder (`renderTimeline`,
lines 347-399), the date parser (`parseDate`, lines 185-188) and the
client-side correlator (`generateConnections`, lines 676-771).

JavaScript values are modelled as follows: string fields that may be
`undefined` become `Option String`; numeric fields that may be `undefined`
become `Option Int`; the JS `x || d` idiom (which treats `undefined`,
`""` and `0` as falsy) is modelled by explicit helpers.  Date fields are
modelled by `RawDate`: absent/empty (falsy), or a present string together
with its ECMAScript `new Date(s)` parse result (`none` standing for an
Invalid Date, whose time value is NaN).  `new Date(s)` on a string never
throws, so the `catch` branch of `parseDate` is unreachable; NaN
comparisons are false and a NaN comparator result is treated as 0 by
`Array.prototype.sort`.  `Array.prototype.sort` is a stable sort, modelled
by `List.mergeSort` on the comparator-induced boolean order.
-/

namespace AstroturfDetector

/-- JS `x || d` for an optional string field: `undefined` and `""` are falsy. -/
def jsStrOr (x : Option String) (d : String) : String :=
  match x with
  | none => d
  | some s => if s = "" then d else s

/-- JS `x || d` for an optional numeric field: `undefined` and `0` are falsy. -/
def jsOr (x : Option Int) (d : Int) : Int :=
  match x with
  | none => d
  | some v => if v = 0 then d else v

/-- JS `String.prototype.toLowerCase` (ASCII data). -/
def jsLower (s : String) : String := String.mk (s.data.map Char.toLower)

/-- Does `l` contain `sub` as a contiguous sublist. -/
def listContains (sub : List Char) : List Char → Bool
  | [] => sub.isEmpty
  | c :: t => sub.isPrefixOf (c :: t) || listContains sub t

/-- JS `String.prototype.includes`: does `s` contain `sub`. -/
def jsIncludes (s sub : String) : Bool := listContains sub.data s.data

/-- JS `String.prototype.substring(0, n)`. -/
def jsTake (s : String) (n : Nat) : String := String.mk (s.data.take n)

/-- ASCII whitespace, as removed by JS `String.prototype.trim`. -/
def isWs (c : Char) : Bool := c = ' ' || c = '\t' || c = '\n' || c = '\r'

/-- JS `String.prototype.trim` (ASCII data). -/
def jsTrim (s : String) : String :=
  String.mk (((s.data.dropWhile isWs).reverse.dropWhile isWs).reverse)

/-- JS `x?.substring(0, n)` interpolated into a template literal:
`undefined` prints as `"undefined"`. -/
def jsOptSub (x : Option String) (n : Nat) : String :=
  match x with
  | none => "undefined"
  | some s => jsTake s n

/-- A JS date-valued field: absent (`undefined`/`null`), or a string `s`
whose ECMAScript `new Date(s)` time value is `parsed` (`none` = Invalid
Date, i.e. NaN time value; `some t` = `t` milliseconds since the epoch). -/
inductive RawDate where
  | absent : RawDate
  | str (s : String) (parsed : Option Int) : RawDate
deriving DecidableEq

/-- JS falsiness of a date field: `undefined` and `""` are falsy. -/
def rawFalsy : RawDate → Bool
  | .absent => true
  | .str s _ => s = ""

/-- The string a date field prints as inside a template literal. -/
def rawDateStr : RawDate → String
  | .absent => "undefined"
  | .str s _ => s

/-- `parseDate` (app.js 185-188):
`if (!d) return new Date(0); try { return new Date(d); } catch { return new Date(0); }`.
`new Date(s)` never throws on a string, so an unparsable string yields an
Invalid Date (`none`), not the epoch; the catch branch is dead. -/
def parseDate : RawDate → Option Int
  | .absent => some 0
  | .str s p => if s = "" then some 0 else p

/-- JS `x >= y` where `x` may be an Invalid Date (NaN): NaN comparisons are false. -/
def jsGeNum (x : Option Int) (y : Int) : Bool :=
  match x with
  | none => false
  | some v => y ≤ v

/-- JS subtraction of possibly-NaN numbers: NaN propagates. -/
def jsSubNum (x y : Option Int) : Option Int :=
  match x, y with
  | some a, some b => some (a - b)
  | _, _ => none

/-- `Array.prototype.sort` coerces a NaN comparator result to `+0`. -/
def jsCmpVal : Option Int → Int
  | none => 0
  | some v => v

/-! ## Data model -/

structure NewsArticle where
  title : Option String
  url : Option String
  source : Option String
  location : Option String
  date : RawDate
  query : Option String
  relevance_score : Option Int
deriving DecidableEq

structure JobPosting where
  title : Option String
  url : Option String
  city : Option String
  state : Option String
  suspicion_score : Option Int
deriving DecidableEq

structure Organization where
  name : Option String
  state : Option String
  type : Option String
  first_file_date : RawDate
  risk_score : Option Int
deriving DecidableEq

/-- A timeline event, raw (legacy, stored) or projected. -/
structure TEvent where
  type : Option String
  title : Option String
  date : RawDate
  timestamp : RawDate
  sourceUrl : Option String
  score : Option Int
  scoreLabel : Option String
deriving DecidableEq

structure Evidence where
  type : String
  detail : String
deriving DecidableEq

structure Connection where
  type : String
  description : String
  probability : Int
  evidence : List Evidence
deriving DecidableEq

/-- The fields of the `memory` snapshot that the correlator reads. -/
structure Memory where
  jobPostings : List JobPosting
  recentNews : List NewsArticle
  flaggedOrganizations : List Organization
deriving DecidableEq

/-! ## Timeline builder (`renderTimeline`, app.js 347-399) -/

/-- Projection of a high-relevance news article (app.js 351-362).
`date: n.date || new Date().toISOString()` defaults a falsy date to the
current time, supplied here as `nowD`. -/
def projNews (nowD : RawDate) (n : NewsArticle) : TEvent :=
  { type := some "news"
    title := n.title
    date := if rawFalsy n.date then nowD else n.date
    timestamp := .absent
    sourceUrl := n.url
    score := n.relevance_score
    scoreLabel := some "relevance" }

/-- The guard `(n.relevance_score || 0) >= 70` (app.js 352). -/
def newsHighValue (n : NewsArticle) : Bool := 70 ≤ jsOr n.relevance_score 0

/-- The guard `e.type === 'job_posting' || e.type === 'organization'` (app.js 367). -/
def legacyKept (e : TEvent) : Bool :=
  e.type == some "job_posting" || e.type == some "organization"

/-- Projection of a kept legacy event (app.js 368-372):
`{...e, score: e.score || 50, scoreLabel: e.type === 'job_posting' ? 'suspicion' : 'risk'}`. -/
def projLegacy (e : TEvent) : TEvent :=
  { e with
    score := some (jsOr e.score 50)
    scoreLabel := some (if e.type == some "job_posting" then "suspicion" else "risk") }

/-- The two `forEach` loops building `highValueEvents` (app.js 348-374). -/
def buildHighValue (nowD : RawDate) (news : List NewsArticle) (legacy : List TEvent) :
    List TEvent :=
  let acc1 := news.foldl
    (fun acc n => if newsHighValue n then acc ++ [projNews nowD n] else acc) []
  legacy.foldl (fun acc e => if legacyKept e then acc ++ [projLegacy e] else acc) acc1

/-- The dedup key `(e.title || '').substring(0, 50)` (app.js 379). -/
def dedupKey (e : TEvent) : String := jsTake (jsStrOr e.title "") 50

/-- The `filter` with a `seen` set (app.js 377-383), with the set of
already-seen keys made explicit. -/
def dedupeBy (key : α → String) : List String → List α → List α
  | _, [] => []
  | seen, e :: rest =>
    if key e ∈ seen then dedupeBy key seen rest
    else e :: dedupeBy key (key e :: seen) rest

/-- `highValueEvents = highValueEvents.filter(...)` with the title key. -/
def dedupeEvents (l : List TEvent) : List TEvent := dedupeBy dedupKey [] l

/-- `e.date || e.timestamp` (app.js 391, 398). -/
def effDate (e : TEvent) : RawDate := if rawFalsy e.date then e.timestamp else e.date

/-- The time value an event sorts and filters by. -/
def dateN (e : TEvent) : Option Int := parseDate (effDate e)

/-- `(b.score || 0)` resp. `(a.score || 0)` (app.js 396). -/
def scoreD (e : TEvent) : Int := jsOr e.score 0

/-- The sort comparator (app.js 395-399), after `Array.prototype.sort`
coerces a NaN result to `+0`. -/
def cmpEvents (a b : TEvent) : Int :=
  if scoreD b - scoreD a ≠ 0 then scoreD b - scoreD a
  else jsCmpVal (jsSubNum (dateN b) (dateN a))

/-- `a` may be placed before `b` by the stable sort. -/
def timelineLe (a b : TEvent) : Bool := cmpEvents a b ≤ 0

/-- `filtered.sort(...)`: stable sort by the comparator. -/
def sortEvents (l : List TEvent) : List TEvent := l.mergeSort timelineLe

/-- The date-range argument of `renderTimeline`. -/
inductive Range where
  | all : Range
  | days (d : Int) : Range
deriving DecidableEq

/-- The date filter (app.js 386-392); `now` is `Date.now()`. -/
def rangeFilter (now : Int) (range : Range) (l : List TEvent) : List TEvent :=
  match range with
  | .all => l
  | .days d => l.filter (fun e => jsGeNum (dateN e) (now - d * 86400000))

/-- The pure core of `renderTimeline` (app.js 347-399): build, dedupe,
filter by date range, sort. -/
def buildTimeline (now : Int) (nowD : RawDate) (news : List NewsArticle)
    (legacy : List TEvent) (range : Range) : List TEvent :=
  sortEvents (rangeFilter now range (dedupeEvents (buildHighValue nowD news legacy)))

/-! ## Correlator (`generateConnections`, app.js 676-771) -/

/-- The fixed city-name list scanned in news titles (app.js 687). -/
def cityList : List String :=
  ["dallas", "los angeles", "new york", "chicago", "houston", "phoenix",
   "philadelphia", "san antonio", "san diego", "austin", "portland",
   "seattle", "minneapolis"]

/-- `Set.prototype.add`: insert if not already present. -/
def setAdd (s : List String) (x : String) : List String :=
  if x ∈ s then s else s ++ [x]

/-- The inner `cities.forEach` (app.js 688-690): add each fixed city name
found in the lower-cased title. -/
def addTitleCities (title : Option String) (acc : List String) : List String :=
  cityList.foldl
    (fun acc city =>
      if jsIncludes (jsLower (jsStrOr title "")) city then setAdd acc city else acc)
    acc

/-- The `newsLocations` set (app.js 683-691). -/
def newsLocations (news : List NewsArticle) : List String :=
  news.foldl
    (fun acc n =>
      let acc1 := match n.location with
        | none => acc
        | some l => if l = "" then acc else setAdd acc (jsLower l)
      addTitleCities n.title acc1)
    []

/-- `jobsNearNews` (app.js 693-696). -/
def jobsNearNews (jobs : List JobPosting) (news : List NewsArticle) : List JobPosting :=
  jobs.filter (fun j => jsLower (jsStrOr j.city "") ∈ newsLocations news)

/-- Detector 1, Geographic Match (app.js 698-708). -/
def geoConnection (jobs : List JobPosting) (news : List NewsArticle) : Option Connection :=
  if 0 < (jobsNearNews jobs news).length then
    some
      { type := "Geographic Match"
        description := toString (jobsNearNews jobs news).length ++
          " suspicious job posting(s) found in cities with recent protest-related news coverage."
        probability := min (60 + ((jobsNearNews jobs news).length : Int) * 5) 85
        evidence := ((jobsNearNews jobs news).take 2).map (fun j =>
          { type := "Job", detail := jsOptSub j.title 40 ++ " in " ++ jsStrOr j.city "Unknown" }) }
  else none

/-- The generic-name test of detector 2 (app.js 711-714). -/
def namingMatch (o : Organization) : Bool :=
  let name := jsLower (jsStrOr o.name "")
  jsIncludes name "freedom" || jsIncludes name "liberty" ||
    jsIncludes name "citizens for" || jsIncludes name "americans for"

/-- Detector 2, Naming Pattern (app.js 716-726). -/
def namingConnection (orgs : List Organization) : Option Connection :=
  if 3 ≤ (orgs.filter namingMatch).length then
    some
      { type := "Naming Pattern"
        description := toString (orgs.filter namingMatch).length ++
          " organizations using generic patriotic naming patterns commonly associated with astroturf groups."
        probability := min (55 + ((orgs.filter namingMatch).length : Int) * 3) 80
        evidence := ((orgs.filter namingMatch).take 3).map
          (fun o => { type := "Org", detail := jsOptSub o.name 45 }) }
  else none

/-- The recent-high-risk test of detector 3 (app.js 729-735); `sixMonthsAgo`
is the time value of `new Date()` shifted back six months. -/
def recentHighRisk (sixMonthsAgo : Int) (o : Organization) : Bool :=
  match o.first_file_date with
  | .absent => false
  | .str s p =>
    if s = "" then false
    else match p with
      | none => false
      | some filed => sixMonthsAgo < filed && 70 ≤ jsOr o.risk_score 0

/-- Detector 3, New High-Risk Orgs (app.js 737-747). -/
def recentOrgsConnection (sixMonthsAgo : Int) (orgs : List Organization) :
    Option Connection :=
  if 0 < (orgs.filter (recentHighRisk sixMonthsAgo)).length then
    some
      { type := "New High-Risk Orgs"
        description := toString (orgs.filter (recentHighRisk sixMonthsAgo)).length ++
          " high-risk organization(s) filed within the last 6 months, suggesting possible rapid mobilization."
        probability := min (50 + ((orgs.filter (recentHighRisk sixMonthsAgo)).length : Int) * 10) 75
        evidence := ((orgs.filter (recentHighRisk sixMonthsAgo)).take 2).map (fun o =>
          { type := "Filed"
            detail := jsOptSub o.name 35 ++ " (" ++ rawDateStr o.first_file_date ++ ")" }) }
  else none

/-- The paid-news test of detector 4 (app.js 750-753):
`(n.title || '').toLowerCase().includes('paid') || (n.query || '').includes('paid')`.
Note the query is matched without lower-casing. -/
def paidNews (n : NewsArticle) : Bool :=
  jsIncludes (jsLower (jsStrOr n.title "")) "paid" || jsIncludes (jsStrOr n.query "") "paid"

/-- Detector 4, News Cluster (app.js 755-765). -/
def newsClusterConnection (news : List NewsArticle) : Option Connection :=
  if 3 ≤ (news.filter paidNews).length then
    some
      { type := "News Cluster"
        description := toString (news.filter paidNews).length ++
          " news articles specifically mentioning \"paid\" protesters or actors in recent coverage."
        probability := min (45 + ((news.filter paidNews).length : Int) * 5) 70
        evidence := ((news.filter paidNews).take 2).map
          (fun n => { type := "News", detail := jsOptSub n.title 50 }) }
  else none

/-- The final `connections.sort((a, b) => b.probability - a.probability)`:
`a` may stay before `b` when the comparator is `<= 0`. -/
def connLe (a b : Connection) : Bool := b.probability - a.probability ≤ 0

/-- `generateConnections` (app.js 676-771): run the four detectors in
order, then stable-sort by probability descending. -/
def generateConnections (sixMonthsAgo : Int) (mem : Memory) : List Connection :=
  ((geoConnection mem.jobPostings mem.recentNews).toList ++
    (namingConnection mem.flaggedOrganizations).toList ++
    (recentOrgsConnection sixMonthsAgo mem.flaggedOrganizations).toList ++
    (newsClusterConnection mem.recentNews).toList).mergeSort connLe

/-! ## Spec-side definitions, for refinement comparisons only

These follow the words of the specification, not the source; each is
compared with the corresponding source-derived definition above. -/

/-- Modelled from the spec (section 4.2): the dedup key is "the title,
trimmed, case-preserved, truncated to the first 50 characters". -/
def specDedupKey (e : TEvent) : String := jsTake (jsTrim (jsStrOr e.title "")) 50

/-- Modelled from the spec (section 4.4, News Cluster): "news articles
whose title or originating query contains \"paid\" (case-insensitive)". -/
def specPaidNews (n : NewsArticle) : Bool :=
  jsIncludes (jsLower (jsStrOr n.title "")) "paid" ||
    jsIncludes (jsLower (jsStrOr n.query "")) "paid"

/-! ## Helper lemmas -/

theorem foldl_push_filter (p : α → Bool) (f : α → β) (l : List α) :
    ∀ init : List β,
      l.foldl (fun acc x => if p x then acc ++ [f x] else acc) init
        = init ++ (l.filter p).map f := by
  induction l with
  | nil => intro init; simp
  | cons a l ih =>
    intro init
    by_cases h : p a = true
    · simp [h, ih, List.filter_cons]
    · simp [h, ih, List.filter_cons]

theorem buildHighValue_eq (nowD : RawDate) (news : List NewsArticle) (legacy : List TEvent) :
    buildHighValue nowD news legacy
      = (news.filter newsHighValue).map (projNews nowD)
        ++ (legacy.filter legacyKept).map projLegacy := by
  unfold buildHighValue
  rw [foldl_push_filter, foldl_push_filter]
  simp

theorem dedupeBy_sublist (key : α → String) (seen : List String) (l : List α) :
    List.Sublist (dedupeBy key seen l) l := by
  induction l generalizing seen with
  | nil => simp [dedupeBy]
  | cons e rest ih =>
    simp only [dedupeBy]
    by_cases h : key e ∈ seen
    · rw [if_pos h]; exact (ih seen).cons e
    · rw [if_neg h]; exact (ih _).cons₂ e

theorem dedupeBy_key_not_seen (key : α → String) (seen : List String) (l : List α)
    (x : α) (hx : x ∈ dedupeBy key seen l) : key x ∉ seen := by
  induction l generalizing seen with
  | nil => simp [dedupeBy] at hx
  | cons e rest ih =>
    simp only [dedupeBy] at hx
    by_cases h : key e ∈ seen
    · rw [if_pos h] at hx; exact ih seen hx
    · rw [if_neg h] at hx
      rcases List.mem_cons.mp hx with rfl | hx2
      · exact h
      · intro hk
        exact ih (key e :: seen) hx2 (List.mem_cons_of_mem _ hk)

theorem dedupeBy_pairwise (key : α → String) (seen : List String) (l : List α) :
    (dedupeBy key seen l).Pairwise (fun a b => key a ≠ key b) := by
  induction l generalizing seen with
  | nil => simp [dedupeBy]
  | cons e rest ih =>
    simp only [dedupeBy]
    by_cases h : key e ∈ seen
    · rw [if_pos h]; exact ih seen
    · rw [if_neg h]
      refine List.Pairwise.cons ?_ (ih _)
      intro b hb heq
      exact dedupeBy_key_not_seen key _ _ b hb (heq ▸ List.mem_cons_self _ _)

theorem dedupeBy_eq_self (key : α → String) (seen : List String) (l : List α)
    (hp : l.Pairwise (fun a b => key a ≠ key b)) (hs : ∀ x ∈ l, key x ∉ seen) :
    dedupeBy key seen l = l := by
  induction l generalizing seen with
  | nil => rfl
  | cons e rest ih =>
    simp only [dedupeBy]
    rw [if_neg (hs e (List.mem_cons_self _ _))]
    congr 1
    apply ih _ hp.of_cons
    intro x hx hmem
    rcases List.mem_cons.mp hmem with heq | hmem2
    · exact List.rel_of_pairwise_cons hp hx heq.symm
    · exact hs x (List.mem_cons_of_mem _ hx) hmem2

theorem dedupeBy_idem (key : α → String) (l : List α) :
    dedupeBy key [] (dedupeBy key [] l) = dedupeBy key [] l := by
  apply dedupeBy_eq_self key [] _ (dedupeBy_pairwise key [] l)
  intro x _
  simp

theorem dedupeBy_find (key : α → String) (k : String) (seen : List String) (l : List α)
    (hk : k ∉ seen) :
    (dedupeBy key seen l).find? (fun x => key x == k)
      = l.find? (fun x => key x == k) := by
  induction l generalizing seen with
  | nil => rfl
  | cons e rest ih =>
    simp only [dedupeBy]
    by_cases h : key e ∈ seen
    · rw [if_pos h, ih seen hk]
      have hne : (key e == k) = false := by
        rw [beq_eq_false_iff_ne]
        intro heq
        exact hk (heq ▸ h)
      simp [List.find?_cons, hne]
    · rw [if_neg h]
      by_cases hpe : (key e == k) = true
      · simp [List.find?_cons, hpe]
      · have hne : (key e == k) = false := by
          revert hpe
          cases key e == k <;> simp
        have hk2 : k ∉ key e :: seen := by
          intro hmem
          rcases List.mem_cons.mp hmem with heq | hmem2
          · rw [beq_eq_false_iff_ne] at hne
            exact hne heq.symm
          · exact hk hmem2
        simp [List.find?_cons, hne, ih (key e :: seen) hk2]

/-! ## Claim theorems -/

/-- A concrete timeline event with a leading space in the title. -/
def evT1 : TEvent :=
  { type := some "news", title := some " Protest report in Dallas", date := .absent,
    timestamp := .absent, sourceUrl := none, score := some 80,
    scoreLabel := some "relevance" }

/-- The same event with the title not space-prefixed. -/
def evT2 : TEvent := { evT1 with title := some "Protest report in Dallas" }

/-- C3 counterexample: `evT1` and `evT2` share the spec's key (title
trimmed then truncated to 50 characters), yet the code keeps both, because
the code's key `(e.title || '').substring(0, 50)` does not trim; the two
code keys differ. -/
theorem C3_counterexample :
    specDedupKey evT1 = specDedupKey evT2 ∧
    dedupeEvents [evT1, evT2] = [evT1, evT2] ∧
    dedupKey evT1 ≠ dedupKey evT2 := by
  refine ⟨by decide, by decide, by decide⟩

/-- C3 (amended): deduplication keys an item by its title, **untrimmed**,
case-preserved, truncated to the first 50 characters (empty string for a
missing title); any two items sharing this key are duplicates and only the
first in input order is kept: the output is a subsequence of the input, no
two kept items share a key, the kept item for each key is the first input
item carrying it, and the merged timeline never holds two events sharing a
key. -/
theorem C3_dedup_key_untrimmed (l : List TEvent) :
    List.Sublist (dedupeEvents l) l ∧
    (dedupeEvents l).Pairwise (fun a b => dedupKey a ≠ dedupKey b) ∧
    (∀ k : String,
      (dedupeEvents l).find? (fun e => dedupKey e == k)
        = l.find? (fun e => dedupKey e == k)) := by
  refine ⟨dedupeBy_sublist dedupKey [] l, dedupeBy_pairwise dedupKey [] l, ?_⟩
  intro k
  exact dedupeBy_find dedupKey k [] l (by simp)

/-- C8: deduplication is idempotent, and for every key the kept item is
the first item in input order carrying that key. -/
theorem C8_dedupe_idempotent (l : List TEvent) :
    dedupeEvents (dedupeEvents l) = dedupeEvents l ∧
    (∀ k : String,
      (dedupeEvents l).find? (fun e => dedupKey e == k)
        = l.find? (fun e => dedupKey e == k)) := by
  refine ⟨dedupeBy_idem dedupKey l, ?_⟩
  intro k
  exact dedupeBy_find dedupKey k [] l (by simp)

/-- C6: every news article with relevance score at least 70 is projected
into a timeline event of type "news" with scoreLabel "relevance"; every
legacy event of type "job_posting" or "organization" is projected with
scoreLabel "suspicion" resp. "risk"; a record carrying no score defaults
to score 50. -/
theorem C6_timeline_projection (nowD : RawDate) (news : List NewsArticle)
    (legacy : List TEvent) :
    (∀ n ∈ news, 70 ≤ jsOr n.relevance_score 0 →
      projNews nowD n ∈ buildHighValue nowD news legacy ∧
      (projNews nowD n).type = some "news" ∧
      (projNews nowD n).scoreLabel = some "relevance") ∧
    (∀ e ∈ legacy,
      (e.type = some "job_posting" →
        projLegacy e ∈ buildHighValue nowD news legacy ∧
        (projLegacy e).scoreLabel = some "suspicion") ∧
      (e.type = some "organization" →
        projLegacy e ∈ buildHighValue nowD news legacy ∧
        (projLegacy e).scoreLabel = some "risk") ∧
      (e.score = none → (projLegacy e).score = some 50)) := by
  rw [buildHighValue_eq]
  refine ⟨?_, ?_⟩
  · intro n hn hscore
    refine ⟨?_, rfl, rfl⟩
    apply List.mem_append_left
    apply List.mem_map_of_mem
    rw [List.mem_filter]
    exact ⟨hn, by simpa [newsHighValue] using hscore⟩
  · intro e he
    refine ⟨fun hjp => ⟨?_, ?_⟩, fun horg => ⟨?_, ?_⟩, fun hs => ?_⟩
    · apply List.mem_append_right
      apply List.mem_map_of_mem
      rw [List.mem_filter]
      exact ⟨he, by simp [legacyKept, hjp]⟩
    · simp [projLegacy, hjp]
    · apply List.mem_append_right
      apply List.mem_map_of_mem
      rw [List.mem_filter]
      exact ⟨he, by simp [legacyKept, horg]⟩
    · simp [projLegacy, horg]
    · simp [projLegacy, jsOr, hs]

/-- A concrete high-relevance news article. -/
def newsW : NewsArticle :=
  { title := some "Paid actors bused to rally", url := some "u", source := some "google",
    location := some "Dallas", date := .str "2025-09-01" (some 1756684800000),
    query := some "paid protest", relevance_score := some 80 }

/-- A concrete legacy job-posting event with no score. -/
def evJ : TEvent :=
  { type := some "job_posting", title := some "Sign holders wanted",
    date := .str "2025-08-01" (some 1754006400000), timestamp := .absent,
    sourceUrl := none, score := none, scoreLabel := none }

/-- C6 witness: the projection facts hold at a concrete snapshot. -/
theorem C6_timeline_projection_witness :
    (newsW ∈ [newsW] ∧ 70 ≤ jsOr newsW.relevance_score 0 ∧ evJ ∈ [evJ] ∧
      evJ.type = some "job_posting" ∧ evJ.score = none) ∧
    (projNews RawDate.absent newsW ∈ buildHighValue RawDate.absent [newsW] [evJ] ∧
      (projNews RawDate.absent newsW).type = some "news" ∧
      (projNews RawDate.absent newsW).scoreLabel = some "relevance") ∧
    (projLegacy evJ ∈ buildHighValue RawDate.absent [newsW] [evJ] ∧
      (projLegacy evJ).scoreLabel = some "suspicion") ∧
    (projLegacy evJ).score = some 50 := by
  refine ⟨by decide, ?_, ?_, ?_⟩
  · exact (C6_timeline_projection RawDate.absent [newsW] [evJ]).1 newsW (by decide) (by decide)
  · exact ((C6_timeline_projection RawDate.absent [newsW] [evJ]).2 evJ (by decide)).1 (by decide)
  · exact ((C6_timeline_projection RawDate.absent [newsW] [evJ]).2 evJ (by decide)).2.2 (by decide)

/-- C9: every event of the built timeline originates from a news article
or from a legacy entry of type "job_posting" or "organization"; a legacy
entry of any other type contributes no event. -/
theorem C9_other_legacy_excluded (now : Int) (nowD : RawDate) (news : List NewsArticle)
    (legacy : List TEvent) (range : Range) :
    ∀ ev ∈ buildTimeline now nowD news legacy range,
      (∃ n ∈ news, ev = projNews nowD n) ∨
      (∃ e ∈ legacy, (e.type = some "job_posting" ∨ e.type = some "organization")
        ∧ ev = projLegacy e) := by
  intro ev hev
  unfold buildTimeline sortEvents at hev
  rw [List.mem_mergeSort] at hev
  have hev2 : ev ∈ dedupeEvents (buildHighValue nowD news legacy) := by
    cases range with
    | all => exact hev
    | days d => exact List.mem_of_mem_filter hev
  have hev3 : ev ∈ buildHighValue nowD news legacy :=
    (dedupeBy_sublist dedupKey [] _).subset hev2
  rw [buildHighValue_eq] at hev3
  rcases List.mem_append.mp hev3 with h | h
  · left
    rcases List.mem_map.mp h with ⟨n, hn, rfl⟩
    exact ⟨n, List.mem_of_mem_filter hn, rfl⟩
  · right
    rcases List.mem_map.mp h with ⟨e, he, rfl⟩
    refine ⟨e, List.mem_of_mem_filter he, ?_, rfl⟩
    have hkept := List.of_mem_filter he
    simpa [legacyKept] using hkept

/-- C9 witness: at a concrete snapshot the timeline's one event traces to
the kept legacy job-posting entry. -/
theorem C9_other_legacy_excluded_witness :
    projLegacy evJ ∈ buildTimeline 0 RawDate.absent [] [evJ] Range.all ∧
    ((∃ n ∈ ([] : List NewsArticle), projLegacy evJ = projNews RawDate.absent n) ∨
      (∃ e ∈ [evJ], (e.type = some "job_posting" ∨ e.type = some "organization")
        ∧ projLegacy evJ = projLegacy e)) := by
  have hmem : projLegacy evJ ∈ buildTimeline 0 RawDate.absent [] [evJ] Range.all := by
    unfold buildTimeline sortEvents
    exact List.mem_mergeSort.mpr (by decide)
  exact ⟨hmem,
    C9_other_legacy_excluded 0 RawDate.absent [] [evJ] Range.all (projLegacy evJ) hmem⟩

theorem mem_setAdd {s : List String} {x y : String} (h : x ∈ setAdd s y) :
    x ∈ s ∨ x = y := by
  unfold setAdd at h
  by_cases hy : y ∈ s
  · rw [if_pos hy] at h
    exact Or.inl h
  · rw [if_neg hy] at h
    rcases List.mem_append.mp h with h2 | h2
    · exact Or.inl h2
    · right
      simpa using h2

theorem jsLower_ne_empty {s : String} (h : s ≠ "") : jsLower s ≠ "" := by
  intro hc
  apply h
  unfold jsLower at hc
  cases s with
  | mk data =>
    cases data with
    | nil => rfl
    | cons c t => simp [String.ext_iff] at hc

theorem empty_not_mem_addTitleCities (title : Option String) (acc : List String)
    (h : "" ∉ acc) : "" ∉ addTitleCities title acc := by
  unfold addTitleCities
  have main : ∀ (cs : List String) (acc : List String), "" ∉ acc → "" ∉ cs →
      "" ∉ cs.foldl
        (fun acc city =>
          if jsIncludes (jsLower (jsStrOr title "")) city then setAdd acc city else acc)
        acc := by
    intro cs
    induction cs with
    | nil =>
      intro acc ha _
      exact ha
    | cons c t ih =>
      intro acc ha hcs
      simp only [List.foldl_cons]
      apply ih
      · by_cases hc : jsIncludes (jsLower (jsStrOr title "")) c = true
        · rw [if_pos hc]
          intro hmem
          rcases mem_setAdd hmem with h1 | h1
          · exact ha h1
          · exact hcs (by rw [h1]; exact List.mem_cons_self _ _)
        · rw [if_neg hc]
          exact ha
      · intro hmem
        exact hcs (List.mem_cons_of_mem _ hmem)
  exact main cityList acc h (by decide)

theorem empty_not_mem_newsLocations (news : List NewsArticle) :
    "" ∉ newsLocations news := by
  unfold newsLocations
  have main : ∀ (ns : List NewsArticle) (acc : List String), "" ∉ acc →
      "" ∉ ns.foldl
        (fun acc n =>
          addTitleCities n.title
            (match n.location with
              | none => acc
              | some l => if l = "" then acc else setAdd acc (jsLower l)))
        acc := by
    intro ns
    induction ns with
    | nil =>
      intro acc ha
      exact ha
    | cons n t ih =>
      intro acc ha
      simp only [List.foldl_cons]
      apply ih
      apply empty_not_mem_addTitleCities
      cases hl : n.location with
      | none => exact ha
      | some l =>
        show "" ∉ if l = "" then acc else setAdd acc (jsLower l)
        by_cases he : l = ""
        · rw [if_pos he]
          exact ha
        · rw [if_neg he]
          intro hmem
          rcases mem_setAdd hmem with h1 | h1
          · exact ha h1
          · exact jsLower_ne_empty he h1.symm
  exact main news [] (by simp)

/-- C10: the news-location set holds only non-empty strings, so a job with
a missing or empty city is never counted as "near news", and neither the
probability count nor the evidence of the Geographic Match connection ever
includes such a job. -/
theorem C10_geo_no_empty_city (jobs : List JobPosting) (news : List NewsArticle) :
    ("" ∉ newsLocations news) ∧
    (∀ j ∈ jobsNearNews jobs news, j.city ≠ none ∧ j.city ≠ some "") ∧
    (∀ c, geoConnection jobs news = some c →
      c.probability = min (60 + ((jobsNearNews jobs news).length : Int) * 5) 85 ∧
      ∀ ev ∈ c.evidence, ∃ j ∈ jobsNearNews jobs news,
        (j.city ≠ none ∧ j.city ≠ some "") ∧
        ev = { type := "Job",
               detail := jsOptSub j.title 40 ++ " in " ++ jsStrOr j.city "Unknown" }) := by
  have hempty := empty_not_mem_newsLocations news
  have hcity : ∀ j ∈ jobsNearNews jobs news, j.city ≠ none ∧ j.city ≠ some "" := by
    intro j hj
    have hmem : jsLower (jsStrOr j.city "") ∈ newsLocations news := by
      have := List.of_mem_filter hj
      simpa using this
    constructor
    · intro hc
      apply hempty
      simpa [jsStrOr, hc, jsLower] using hmem
    · intro hc
      apply hempty
      simpa [jsStrOr, hc, jsLower] using hmem
  refine ⟨hempty, hcity, ?_⟩
  intro c hc
  unfold geoConnection at hc
  split at hc
  · have hc2 := Option.some.inj hc
    subst hc2
    refine ⟨rfl, ?_⟩
    intro ev hev
    rcases List.mem_map.mp hev with ⟨j, hj, rfl⟩
    have hj2 : j ∈ jobsNearNews jobs news := List.mem_of_mem_take hj
    exact ⟨j, hj2, hcity j hj2, rfl⟩
  · cases hc

/-- A concrete news article located in Dallas. -/
def newsG : NewsArticle :=
  { title := some "Big protest downtown", url := none, source := none,
    location := some "Dallas", date := .absent, query := none,
    relevance_score := some 50 }

/-- A concrete job posting in Dallas. -/
def jobG : JobPosting :=
  { title := some "Hold signs", url := none, city := some "Dallas",
    state := some "TX", suspicion_score := some 80 }

/-- The Geographic Match connection the correlator emits for them. -/
def cGeo : Connection :=
  { type := "Geographic Match"
    description :=
      "1 suspicious job posting(s) found in cities with recent protest-related news coverage."
    probability := 65
    evidence := [{ type := "Job", detail := "Hold signs in Dallas" }] }

/-- C10 witness: the Geographic Match facts hold at a concrete snapshot. -/
theorem C10_geo_no_empty_city_witness :
    jobG ∈ jobsNearNews [jobG] [newsG] ∧
    (jobG.city ≠ none ∧ jobG.city ≠ some "") ∧
    geoConnection [jobG] [newsG] = some cGeo ∧
    cGeo.probability = min (60 + ((jobsNearNews [jobG] [newsG]).length : Int) * 5) 85 := by
  refine ⟨by decide, ?_, by decide, ?_⟩
  · exact (C10_geo_no_empty_city [jobG] [newsG]).2.1 jobG (by decide)
  · exact ((C10_geo_no_empty_city [jobG] [newsG]).2.2 cGeo (by decide)).1

/-- C4: the Naming Pattern detector emits a connection exactly when at
least 3 organizations have a lower-cased name containing "freedom",
"liberty", "citizens for" or "americans for"; its probability is
min(55 + 3*count, 80) and its evidence holds at most 3 names. -/
theorem C4_naming_pattern (orgs : List Organization) :
    ((namingConnection orgs).isSome ↔ 3 ≤ (orgs.filter namingMatch).length) ∧
    (∀ c, namingConnection orgs = some c →
      c.probability = min (55 + ((orgs.filter namingMatch).length : Int) * 3) 80 ∧
      c.evidence.length ≤ 3) := by
  unfold namingConnection
  by_cases h : 3 ≤ (orgs.filter namingMatch).length
  · rw [if_pos h]
    refine ⟨by simpa using h, ?_⟩
    intro c hc
    have hc2 := Option.some.inj hc
    subst hc2
    refine ⟨rfl, ?_⟩
    simp only [List.length_map, List.length_take]
    exact min_le_left _ _
  · rw [if_neg h]
    refine ⟨by simpa using h, ?_⟩
    intro c hc
    cases hc

/-- A concrete organization with only a name. -/
def orgNamed (nm : String) : Organization :=
  { name := some nm, state := none, type := none, first_file_date := .absent,
    risk_score := none }

/-- The five generically named organizations of the spec's example. -/
def orgsFive : List Organization :=
  [orgNamed "Americans for Liberty Now", orgNamed "Citizens for Freedom",
   orgNamed "Freedom Families United", orgNamed "Liberty Voices Council",
   orgNamed "Americans for Progress"]

/-- The Naming Pattern connection the correlator emits for them. -/
def cNaming : Connection :=
  { type := "Naming Pattern"
    description :=
      "5 organizations using generic patriotic naming patterns commonly associated with astroturf groups."
    probability := 70
    evidence :=
      [{ type := "Org", detail := "Americans for Liberty Now" },
       { type := "Org", detail := "Citizens for Freedom" },
       { type := "Org", detail := "Freedom Families United" }] }

/-- C4 witness: five matching organizations yield probability
min(55 + 3*5, 80) = 70 with three evidence items. -/
theorem C4_naming_pattern_witness :
    namingConnection orgsFive = some cNaming ∧
    (orgsFive.filter namingMatch).length = 5 ∧
    cNaming.probability = 70 ∧ cNaming.evidence.length ≤ 3 := by
  refine ⟨by decide, by decide, ?_, ?_⟩
  · exact ((C4_naming_pattern orgsFive).2 cNaming (by decide)).1.trans (by decide)
  · exact ((C4_naming_pattern orgsFive).2 cNaming (by decide)).2

/-- A concrete news article whose query, but not title, mentions "paid",
upper-cased. -/
def newsQ : NewsArticle :=
  { title := some "City council meets tonight", url := none, source := none,
    location := none, date := .absent, query := some "PAID protesters",
    relevance_score := some 50 }

/-- C5 counterexample: three articles whose queries contain "paid" only in
upper case all satisfy the spec's case-insensitive predicate, yet the
detector emits nothing, because the code matches the query without
lower-casing. -/
theorem C5_counterexample :
    (([newsQ, newsQ, newsQ].filter specPaidNews).length = 3) ∧
    newsClusterConnection [newsQ, newsQ, newsQ] = none ∧
    specPaidNews newsQ ≠ paidNews newsQ := by
  refine ⟨by decide, by decide, by decide⟩

/-- C5 (amended): the News Cluster detector counts the articles whose
lower-cased title contains "paid" or whose query contains "paid"
**case-sensitively**; it emits a connection exactly when at least 3 such
articles exist, with probability min(45 + 5*count, 70) and at most 2
evidence items. -/
theorem C5_news_cluster (news : List NewsArticle) :
    ((newsClusterConnection news).isSome ↔ 3 ≤ (news.filter paidNews).length) ∧
    (∀ c, newsClusterConnection news = some c →
      c.probability = min (45 + ((news.filter paidNews).length : Int) * 5) 70 ∧
      c.evidence.length ≤ 2) := by
  unfold newsClusterConnection
  by_cases h : 3 ≤ (news.filter paidNews).length
  · rw [if_pos h]
    refine ⟨by simpa using h, ?_⟩
    intro c hc
    have hc2 := Option.some.inj hc
    subst hc2
    refine ⟨rfl, ?_⟩
    simp only [List.length_map, List.length_take]
    exact min_le_left _ _
  · rw [if_neg h]
    refine ⟨by simpa using h, ?_⟩
    intro c hc
    cases hc

/-- A concrete news article whose title mentions paid actors. -/
def newsP : NewsArticle :=
  { title := some "Paid actors spotted at rally", url := none, source := none,
    location := none, date := .absent, query := none, relevance_score := some 60 }

/-- The News Cluster connection the correlator emits for three of them. -/
def cCluster : Connection :=
  { type := "News Cluster"
    description :=
      "3 news articles specifically mentioning \"paid\" protesters or actors in recent coverage."
    probability := 60
    evidence :=
      [{ type := "News", detail := "Paid actors spotted at rally" },
       { type := "News", detail := "Paid actors spotted at rally" }] }

/-- C5 witness: three matching articles yield probability
min(45 + 5*3, 70) = 60 with two evidence items. -/
theorem C5_news_cluster_witness :
    newsClusterConnection [newsP, newsP, newsP] = some cCluster ∧
    cCluster.probability = 60 ∧ cCluster.evidence.length ≤ 2 := by
  refine ⟨by decide, ?_, ?_⟩
  · exact ((C5_news_cluster [newsP, newsP, newsP]).2 cCluster (by decide)).1.trans (by decide)
  · exact ((C5_news_cluster [newsP, newsP, newsP]).2 cCluster (by decide)).2

theorem geoConnection_type_prob {jobs : List JobPosting} {news : List NewsArticle}
    {c : Connection} (h : geoConnection jobs news = some c) :
    c.type = "Geographic Match" ∧
    c.probability = min (60 + ((jobsNearNews jobs news).length : Int) * 5) 85 := by
  unfold geoConnection at h
  split at h
  · have h2 := Option.some.inj h
    subst h2
    exact ⟨rfl, rfl⟩
  · cases h

theorem namingConnection_type_prob {orgs : List Organization} {c : Connection}
    (h : namingConnection orgs = some c) :
    c.type = "Naming Pattern" ∧
    c.probability = min (55 + ((orgs.filter namingMatch).length : Int) * 3) 80 := by
  unfold namingConnection at h
  split at h
  · have h2 := Option.some.inj h
    subst h2
    exact ⟨rfl, rfl⟩
  · cases h

theorem recentOrgsConnection_type_prob {t : Int} {orgs : List Organization}
    {c : Connection} (h : recentOrgsConnection t orgs = some c) :
    c.type = "New High-Risk Orgs" ∧
    c.probability = min (50 + ((orgs.filter (recentHighRisk t)).length : Int) * 10) 75 := by
  unfold recentOrgsConnection at h
  split at h
  · have h2 := Option.some.inj h
    subst h2
    exact ⟨rfl, rfl⟩
  · cases h

theorem newsClusterConnection_type_prob {news : List NewsArticle} {c : Connection}
    (h : newsClusterConnection news = some c) :
    c.type = "News Cluster" ∧
    c.probability = min (45 + ((news.filter paidNews).length : Int) * 5) 70 := by
  unfold newsClusterConnection at h
  split at h
  · have h2 := Option.some.inj h
    subst h2
    exact ⟨rfl, rfl⟩
  · cases h

/-- C1: every connection the correlator emits respects its detector's
documented probability cap: 85 for Geographic Match, 80 for Naming
Pattern, 75 for New High-Risk Orgs, 70 for News Cluster. -/
theorem C1_probability_caps (sixMonthsAgo : Int) (mem : Memory) :
    ∀ c ∈ generateConnections sixMonthsAgo mem,
      (c.type = "Geographic Match" → c.probability ≤ 85) ∧
      (c.type = "Naming Pattern" → c.probability ≤ 80) ∧
      (c.type = "New High-Risk Orgs" → c.probability ≤ 75) ∧
      (c.type = "News Cluster" → c.probability ≤ 70) := by
  intro c hc
  unfold generateConnections at hc
  rw [List.mem_mergeSort] at hc
  simp only [List.mem_append, Option.mem_toList, Option.mem_def] at hc
  rcases hc with ((h | h) | h) | h
  · obtain ⟨ht, hp⟩ := geoConnection_type_prob h
    refine ⟨fun _ => ?_, fun h2 => ?_, fun h2 => ?_, fun h2 => ?_⟩
    · rw [hp]; exact min_le_right _ _
    · rw [ht] at h2; exact absurd h2 (by decide)
    · rw [ht] at h2; exact absurd h2 (by decide)
    · rw [ht] at h2; exact absurd h2 (by decide)
  · obtain ⟨ht, hp⟩ := namingConnection_type_prob h
    refine ⟨fun h2 => ?_, fun _ => ?_, fun h2 => ?_, fun h2 => ?_⟩
    · rw [ht] at h2; exact absurd h2 (by decide)
    · rw [hp]; exact min_le_right _ _
    · rw [ht] at h2; exact absurd h2 (by decide)
    · rw [ht] at h2; exact absurd h2 (by decide)
  · obtain ⟨ht, hp⟩ := recentOrgsConnection_type_prob h
    refine ⟨fun h2 => ?_, fun h2 => ?_, fun _ => ?_, fun h2 => ?_⟩
    · rw [ht] at h2; exact absurd h2 (by decide)
    · rw [ht] at h2; exact absurd h2 (by decide)
    · rw [hp]; exact min_le_right _ _
    · rw [ht] at h2; exact absurd h2 (by decide)
  · obtain ⟨ht, hp⟩ := newsClusterConnection_type_prob h
    refine ⟨fun h2 => ?_, fun h2 => ?_, fun h2 => ?_, fun _ => ?_⟩
    · rw [ht] at h2; exact absurd h2 (by decide)
    · rw [ht] at h2; exact absurd h2 (by decide)
    · rw [ht] at h2; exact absurd h2 (by decide)
    · rw [hp]; exact min_le_right _ _

/-- The memory snapshot holding three organizations named "freedom". -/
def memThreeOrgs : Memory :=
  { jobPostings := [], recentNews := [],
    flaggedOrganizations := [orgNamed "freedom", orgNamed "freedom", orgNamed "freedom"] }

/-- The Naming Pattern connection emitted for that snapshot. -/
def cThree : Connection :=
  { type := "Naming Pattern"
    description :=
      "3 organizations using generic patriotic naming patterns commonly associated with astroturf groups."
    probability := 64
    evidence :=
      [{ type := "Org", detail := "freedom" }, { type := "Org", detail := "freedom" },
       { type := "Org", detail := "freedom" }] }

/-- C1 witness: the cap bounds hold for a concretely emitted connection. -/
theorem C1_probability_caps_witness :
    cThree ∈ generateConnections 0 memThreeOrgs ∧
    ((cThree.type = "Geographic Match" → cThree.probability ≤ 85) ∧
      (cThree.type = "Naming Pattern" → cThree.probability ≤ 80) ∧
      (cThree.type = "New High-Risk Orgs" → cThree.probability ≤ 75) ∧
      (cThree.type = "News Cluster" → cThree.probability ≤ 70)) := by
  have hmem : cThree ∈ generateConnections 0 memThreeOrgs := by
    unfold generateConnections
    exact List.mem_mergeSort.mpr (by decide)
  exact ⟨hmem, C1_probability_caps 0 memThreeOrgs cThree hmem⟩

/-- A timeline event whose date string does not parse. -/
def evBadDate : TEvent :=
  { type := some "news", title := some "Unparsable", date := .str "not-a-date" none,
    timestamp := .absent, sourceUrl := none, score := some 50,
    scoreLabel := some "relevance" }

/-- An equally scored event with a recent valid date. -/
def evGoodDate : TEvent :=
  { evBadDate with title := some "Recent", date := .str "2025-09-01" (some 1756684800000) }

/-- The same event with its date replaced by the epoch, as the claim says
an unparsable date is treated. -/
def evEpochDate : TEvent := { evBadDate with date := .str "1970-01-01T00:00:00Z" (some 0) }

/-- C7 (code bug): `new Date(s)` never throws on a string, so the dead
`catch` branch of `parseDate` cannot map an unparsable date to the epoch;
such a date yields an Invalid Date (NaN time value).  The event is indeed
excluded from every bounded range (NaN comparisons are false) and nothing
is thrown, but in the 'all' view its comparator result against an
equal-score event is NaN, coerced to 0 by the sort — an input-order tie —
whereas an epoch-dated event sorts after (older than) a recent one.  A
missing date is treated as the epoch, as claimed. -/
theorem C7_unparsable_date_not_epoch :
    parseDate (RawDate.str "not-a-date" none) = none ∧
    parseDate (RawDate.str "not-a-date" none) ≠ some 0 ∧
    parseDate RawDate.absent = some 0 ∧
    (∀ cutoff : Int, jsGeNum (dateN evBadDate) cutoff = false) ∧
    cmpEvents evBadDate evGoodDate = 0 ∧
    cmpEvents evGoodDate evBadDate = 0 ∧
    0 < cmpEvents evEpochDate evGoodDate := by
  refine ⟨rfl, by decide, rfl, fun cutoff => rfl, by decide, by decide, by decide⟩

/-- Timeline events whose effective date parses to a time value. -/
def ValidEvent : Type := {e : TEvent // (dateN e).isSome = true}

/-- The sort order restricted to events with parseable dates. -/
def leV (a b : ValidEvent) : Bool := timelineLe a.1 b.1

theorem timelineLe_valid {a b : TEvent} {ta tb : Int} (ha : dateN a = some ta)
    (hb : dateN b = some tb) :
    timelineLe a b = true ↔
      (scoreD b < scoreD a ∨ (scoreD b = scoreD a ∧ tb ≤ ta)) := by
  unfold timelineLe cmpEvents
  rw [ha, hb]
  simp only [jsSubNum, jsCmpVal, decide_eq_true_eq]
  by_cases h : scoreD b - scoreD a = 0
  · rw [if_neg (by omega)]
    constructor
    · intro h2; omega
    · intro h2; omega
  · rw [if_pos h]
    constructor
    · intro h2; omega
    · intro h2; omega

theorem leV_trans (a b c : ValidEvent) (h1 : leV a b) (h2 : leV b c) : leV a c := by
  obtain ⟨ta, ha⟩ := Option.isSome_iff_exists.mp a.2
  obtain ⟨tb, hb⟩ := Option.isSome_iff_exists.mp b.2
  obtain ⟨tc, hc⟩ := Option.isSome_iff_exists.mp c.2
  unfold leV at h1 h2 ⊢
  rw [timelineLe_valid ha hb] at h1
  rw [timelineLe_valid hb hc] at h2
  rw [timelineLe_valid ha hc]
  omega

theorem leV_total (a b : ValidEvent) : leV a b || leV b a := by
  obtain ⟨ta, ha⟩ := Option.isSome_iff_exists.mp a.2
  obtain ⟨tb, hb⟩ := Option.isSome_iff_exists.mp b.2
  rw [Bool.or_eq_true]
  unfold leV
  rw [timelineLe_valid ha hb, timelineLe_valid hb ha]
  omega

theorem pmap_sublist {p : α → Prop} (f : ∀ a, p a → β) {s l : List α}
    (hs : List.Sublist s l) :
    ∀ (H : ∀ a ∈ l, p a) (Hs : ∀ a ∈ s, p a),
      List.Sublist (s.pmap f Hs) (l.pmap f H) := by
  induction hs with
  | slnil =>
    intro H Hs
    simp [List.pmap]
  | cons a h ih =>
    intro H Hs
    simp only [List.pmap]
    exact List.Sublist.cons _
      (ih (fun x hx => H x (List.mem_cons_of_mem _ hx)) Hs)
  | cons₂ a h ih =>
    intro H Hs
    simp only [List.pmap]
    exact List.Sublist.cons₂ _
      (ih (fun x hx => H x (List.mem_cons_of_mem _ hx))
        (fun x hx => Hs x (List.mem_cons_of_mem _ hx)))

/-- C2: on a timeline whose events all carry a parseable effective date,
the sort permutes the input; for any two entries the one placed earlier
has the higher score, or an equal score and a no-older date; and a pair
tied on both score and date keeps its input order (stability). -/
theorem C2_timeline_sort (l : List TEvent) (h : ∀ e ∈ l, (dateN e).isSome = true) :
    (sortEvents l).Perm l ∧
    (sortEvents l).Pairwise (fun a b =>
      scoreD b < scoreD a ∨
        (scoreD b = scoreD a ∧ (dateN b).getD 0 ≤ (dateN a).getD 0)) ∧
    (∀ a b, scoreD a = scoreD b → dateN a = dateN b →
      List.Sublist [a, b] l → List.Sublist [a, b] (sortEvents l)) := by
  have hmap : (l.pmap (fun e he => (⟨e, he⟩ : ValidEvent)) h).map Subtype.val = l := by
    simp [List.map_pmap, List.pmap_eq_map]
  have hagree : ∀ a ∈ l.pmap (fun e he => (⟨e, he⟩ : ValidEvent)) h,
      ∀ b ∈ l.pmap (fun e he => (⟨e, he⟩ : ValidEvent)) h,
      leV a b = timelineLe a.1 b.1 := fun _ _ _ _ => rfl
  have hms :
      ((l.pmap (fun e he => (⟨e, he⟩ : ValidEvent)) h).mergeSort leV).map Subtype.val
        = (((l.pmap (fun e he => (⟨e, he⟩ : ValidEvent)) h).map Subtype.val).mergeSort
            timelineLe) :=
    List.map_mergeSort hagree
  have hsort : sortEvents l
      = ((l.pmap (fun e he => (⟨e, he⟩ : ValidEvent)) h).mergeSort leV).map Subtype.val := by
    unfold sortEvents
    rw [hms, hmap]
  refine ⟨?_, ?_, ?_⟩
  · rw [hsort]
    have := (List.mergeSort_perm (l.pmap (fun e he => (⟨e, he⟩ : ValidEvent)) h) leV).map
      Subtype.val
    rw [hmap] at this
    exact this
  · rw [hsort]
    have hpair := List.sorted_mergeSort leV_trans leV_total
      (l.pmap (fun e he => (⟨e, he⟩ : ValidEvent)) h)
    apply List.Pairwise.map Subtype.val ?_ hpair
    intro a b hab
    obtain ⟨ta, ha⟩ := Option.isSome_iff_exists.mp a.2
    obtain ⟨tb, hb⟩ := Option.isSome_iff_exists.mp b.2
    unfold leV at hab
    rw [timelineLe_valid ha hb] at hab
    rw [ha, hb]
    simpa using hab
  · intro a b hsc hdt hsub
    have hav : (dateN a).isSome = true := h a (hsub.subset (by simp))
    have hbv : (dateN b).isSome = true := h b (hsub.subset (by simp))
    obtain ⟨ta, ha⟩ := Option.isSome_iff_exists.mp hav
    obtain ⟨tb, hb⟩ := Option.isSome_iff_exists.mp hbv
    have htt : ta = tb := by
      rw [ha, hb] at hdt
      exact Option.some.inj hdt
    have hsubv : List.Sublist [(⟨a, hav⟩ : ValidEvent), ⟨b, hbv⟩]
        (l.pmap (fun e he => (⟨e, he⟩ : ValidEvent)) h) := by
      have := pmap_sublist (fun e he => (⟨e, he⟩ : ValidEvent)) hsub h
        (fun x hx => h x (hsub.subset hx))
      simpa [List.pmap] using this
    have hab : leV ⟨a, hav⟩ ⟨b, hbv⟩ = true := by
      unfold leV
      rw [timelineLe_valid ha hb]
      right
      exact ⟨hsc.symm, by omega⟩
    have hres := List.pair_sublist_mergeSort leV_trans leV_total hab hsubv
    have := hres.map Subtype.val
    rw [← hsort] at this
    exact this

/-- Three concrete valid-dated events of distinct scores and dates. -/
def lEvents : List TEvent :=
  [{ type := some "news", title := some "a", date := .str "2025-01-01" (some 1735689600000),
     timestamp := .absent, sourceUrl := none, score := some 70, scoreLabel := some "relevance" },
   { type := some "news", title := some "b", date := .str "2025-02-01" (some 1738368000000),
     timestamp := .absent, sourceUrl := none, score := some 90, scoreLabel := some "relevance" },
   { type := some "news", title := some "c", date := .str "2025-03-01" (some 1740787200000),
     timestamp := .absent, sourceUrl := none, score := some 70, scoreLabel := some "relevance" }]

/-- C2 witness: the sort facts hold at a concrete all-valid-date timeline. -/
theorem C2_timeline_sort_witness :
    (∀ e ∈ lEvents, (dateN e).isSome = true) ∧
    ((sortEvents lEvents).Perm lEvents ∧
      (sortEvents lEvents).Pairwise (fun a b =>
        scoreD b < scoreD a ∨
          (scoreD b = scoreD a ∧ (dateN b).getD 0 ≤ (dateN a).getD 0)) ∧
      (∀ a b, scoreD a = scoreD b → dateN a = dateN b →
        List.Sublist [a, b] lEvents → List.Sublist [a, b] (sortEvents lEvents))) :=
  ⟨by decide, C2_timeline_sort lEvents (by decide)⟩

end AstroturfDetector
